import Mathlib

/-
Verification of the invoice-processing pipeline
(services/pipeline_service.py, services/data_validator.py) against its
specification.  Python values occurring in decoded JSON payloads are
embedded as `PyVal`; Python floats are idealised as exact rationals
(all concrete inputs used below are exactly representable).  Standard
library behaviour that the repository only calls (str() of containers,
datetime.strptime, datetime.now) is supplied through an oracle record
`PyOracles` over which the theorems quantify.
-/

/-- A Python value as it can appear in a json.loads result (plus None). -/
inductive PyVal where
  | none
  | str (s : String)
  | int (n : Int)
  | float (q : Rat)
  | bool (b : Bool)
  | dict (fields : List (String × PyVal))
  | list (xs : List PyVal)

/-- Python truthiness: None, "", 0, 0.0, False and empty containers are falsy. -/
def PyVal.truthy : PyVal → Bool
  | .none => false
  | .str s => s != ""
  | .int n => n != 0
  | .float q => q != 0
  | .bool b => b
  | .dict fields => !fields.isEmpty
  | .list xs => !xs.isEmpty

/-- d.get(k): the value under the first occurrence of key k, None when absent. -/
def dget (d : List (String × PyVal)) (k : String) : PyVal :=
  match d.find? (fun p => p.1 == k) with
  | some p => p.2
  | Option.none => .none

/-- d.get(k, dflt): default only when the key is absent. -/
def dgetD (d : List (String × PyVal)) (k : String) (dflt : PyVal) : PyVal :=
  match d.find? (fun p => p.1 == k) with
  | some p => p.2
  | Option.none => dflt

/-- Python `a or b`. -/
def pyOr (a b : PyVal) : PyVal :=
  if a.truthy then a else b

/-- A parsed date: day number relative to a fixed epoch plus the string
rendering of its .date() (the only two facets the validator uses). -/
structure PyDate where
  days : Int
  dateRepr : String

/-- Oracles for the Python standard-library behaviour the validator calls:
str() on floats and on container values, datetime.strptime over the fixed
format list of _parse_date, and datetime.now() as a day count. -/
structure PyOracles where
  show_float : Rat → String
  show_other : PyVal → String
  parse_date : String → Option PyDate
  now_days : Int

/-- Python str() / f-string rendering of a PyVal.  Strings, ints, bools and
None are determined; floats and containers go through the oracle. -/
def fstr (o : PyOracles) : PyVal → String
  | .none => "None"
  | .str s => s
  | .int n => toString n
  | .float q => o.show_float q
  | .bool b => if b then "True" else "False"
  | v => o.show_other v

/-- Python len of a string, as a character count. -/
def pyLen (s : String) : Nat := s.toList.length

/-- The slice s[:n], as a character slice. -/
def pyTake (s : String) (n : Nat) : String := String.mk (s.toList.take n)

/-- s.strip(): drop leading and trailing whitespace. -/
def pyStrip (s : String) : String :=
  String.mk (((s.toList.dropWhile Char.isWhitespace).reverse.dropWhile
    Char.isWhitespace).reverse)

/-- s.upper() over the character sequence. -/
def pyUpper (s : String) : String := String.mk (s.toList.map Char.toUpper)

/-- s.lower() over the character sequence. -/
def pyLower (s : String) : String := String.mk (s.toList.map Char.toLower)

/-- startswith, via character lists. -/
def strPrefix (p s : String) : Bool := p.toList.isPrefixOf s.toList

/-- s.split() worker: cut a character list at whitespace runs, dropping
empty words; acc holds the current word reversed. -/
def splitWSAux : List Char → List Char → List (List Char)
  | [], acc => if acc.isEmpty then [] else [acc.reverse]
  | c :: cs, acc =>
      if c.isWhitespace then
        (if acc.isEmpty then [] else [acc.reverse]) ++ splitWSAux cs []
      else splitWSAux cs (c :: acc)

/-- ' '.join over character lists. -/
def joinSpace : List (List Char) → List Char
  | [] => []
  | [w] => w
  | w :: ws => w ++ ' ' :: joinSpace ws

/-- ' '.join(s.strip().split()): collapse all whitespace runs to single spaces. -/
def normalizeWS (s : String) : String :=
  String.mk (joinSpace (splitWSAux s.toList []))

/-- InvoiceDataValidator._clean_string. -/
def cleanString (o : PyOracles) (v : PyVal) : Option String :=
  if !v.truthy then Option.none
  else
    match v with
    | .str s =>
        let cleaned := normalizeWS s
        if cleaned = "" then Option.none else some cleaned
    | v =>
        let t := pyStrip (fstr o v)
        if t = "" then Option.none else some t

/-- The flat structure produced by _normalize_llm_output. -/
structure Normalized where
  supplier_name : PyVal
  supplier_address : PyVal
  supplier_email : PyVal
  supplier_phone_number : PyVal
  supplier_vat_number : PyVal
  supplier_website : PyVal
  expense_date : PyVal
  invoice_number : PyVal
  currency : PyVal
  total_net : PyVal
  total_tax : PyVal
  total_amount : PyVal

/-- Whether the nested-supplier branch of _normalize_llm_output is taken:
'supplier' in data and isinstance(data['supplier'], dict). -/
def supplierDict (data : List (String × PyVal)) : Option (List (String × PyVal)) :=
  match dget data "supplier" with
  | .dict s => some s
  | _ => Option.none

/-- InvoiceDataValidator._normalize_llm_output. -/
def normalizeLLM (data : List (String × PyVal)) : Normalized :=
  { supplier_name :=
      match supplierDict data with
      | some s => dgetD s "name" (.str "")
      | Option.none => dgetD data "supplier_name" (.str "")
    supplier_address :=
      match supplierDict data with
      | some s => dgetD s "address" (.str "")
      | Option.none => dgetD data "supplier_address" (.str "")
    supplier_email :=
      match supplierDict data with
      | some s => dgetD s "email" (.str "")
      | Option.none => dgetD data "supplier_email" (.str "")
    supplier_phone_number :=
      match supplierDict data with
      | some s => dgetD s "phone_number" (.str "")
      | Option.none => dgetD data "supplier_phone_number" (.str "")
    supplier_vat_number :=
      match supplierDict data with
      | some s => dgetD s "vat_number" (.str "")
      | Option.none => dgetD data "supplier_vat_number" (.str "")
    supplier_website :=
      match supplierDict data with
      | some s => dgetD s "website" (.str "")
      | Option.none => dgetD data "supplier_website" (.str "")
    expense_date :=
      pyOr (dget data "expense_date") (pyOr (dget data "invoice_date")
        (pyOr (dget data "date") (.str "")))
    invoice_number := dgetD data "invoice_number" (.str "")
    currency := dgetD data "currency" (.str "")
    total_net :=
      pyOr (dget data "total_net") (pyOr (dget data "subtotal")
        (pyOr (dget data "net_amount") .none))
    total_tax :=
      pyOr (dget data "total_tax") (pyOr (dget data "tax_amount")
        (pyOr (dget data "vat_amount") .none))
    total_amount :=
      pyOr (dget data "total_amount") (pyOr (dget data "total_amount_incl_tax")
        (pyOr (dget data "grand_total") (pyOr (dget data "amount_due") .none))) }

/-- Numeric value of a list of decimal digit characters. -/
def digitsVal (ds : List Char) : Nat :=
  ds.foldl (fun a c => a * 10 + (c.toNat - 48)) 0

/-- decimal.Decimal(s) for finite decimal literals:
optional sign, digits with an optional fractional part, optional exponent.
Special forms (NaN, Infinity, underscores) are modelled as parse failures. -/
def parseDecimal (s : String) : Option Rat :=
  let cs := s.toList
  let signAndRest : Int × List Char :=
    match cs with
    | '+' :: r => (1, r)
    | '-' :: r => (-1, r)
    | r => (1, r)
  let sgn := signAndRest.1
  let cs1 := signAndRest.2
  let intPart := cs1.takeWhile Char.isDigit
  let cs2 := cs1.dropWhile Char.isDigit
  let fracAndRest : List Char × List Char :=
    match cs2 with
    | '.' :: r => (r.takeWhile Char.isDigit, r.dropWhile Char.isDigit)
    | r => ([], r)
  let fracPart := fracAndRest.1
  let cs3 := fracAndRest.2
  if intPart.isEmpty && fracPart.isEmpty then Option.none
  else
    let mant : Rat :=
      (sgn : Rat) * ((digitsVal (intPart ++ fracPart) : Rat) / ((10 : Rat) ^ fracPart.length))
    match cs3 with
    | [] => some mant
    | c :: r =>
        if c = 'e' || c = 'E' then
          let esignAndRest : Int × List Char :=
            match r with
            | '+' :: t => (1, t)
            | '-' :: t => (-1, t)
            | t => (1, t)
          let edigits := esignAndRest.2.takeWhile Char.isDigit
          let erest := esignAndRest.2.dropWhile Char.isDigit
          if edigits.isEmpty || !erest.isEmpty then Option.none
          else some (mant * (10 : Rat) ^ (esignAndRest.1 * (digitsVal edigits : Int)))
        else Option.none

/-- re.sub applied in _validate_amount: strip currency symbols, commas and
whitespace from the stripped string. -/
def stripCurrency (s : String) : String :=
  String.mk ((pyStrip s).toList.filter
    (fun c => !(c ∈ ['€', '$', '£', '¥', '₹', ','] || c.isWhitespace)))

/-- InvoiceDataValidator._validate_amount.  bool is an int subclass in Python,
but Decimal(str(True)) raises, so booleans yield None; ints and floats parse
exactly (floats idealised as rationals); strings are stripped of currency
symbols and parsed as decimals; anything else yields None. -/
def validateAmount (v : PyVal) : Option Rat :=
  match v with
  | .none => Option.none
  | .int n => some (n : Rat)
  | .float q => some q
  | .bool _ => Option.none
  | .str s => parseDecimal (stripCurrency s)
  | _ => Option.none

/-- Character class of the local part of the email pattern. -/
def emailLocalChar (c : Char) : Bool :=
  c.isAlphanum || c ∈ ['.', '_', '%', '+', '-']

/-- Character class of the domain body of the email and URL patterns. -/
def hostChar (c : Char) : Bool :=
  c.isAlphanum || c ∈ ['.', '-']

/-- Full match against the email pattern of _validate_email.  The final
alphabetic run must follow the last dot of the domain, since the TLD part
admits no dot and is anchored at the end of the string. -/
def matchesEmail (s : String) : Bool :=
  let cs := s.toList
  let loc := cs.takeWhile (fun c => c != '@')
  match cs.dropWhile (fun c => c != '@') with
  | '@' :: dom =>
      !loc.isEmpty && loc.all emailLocalChar && !dom.contains '@' &&
      (let tldRev := dom.reverse.takeWhile (fun c => c != '.')
       match dom.reverse.dropWhile (fun c => c != '.') with
       | '.' :: bodyRev =>
           !bodyRev.isEmpty && bodyRev.all hostChar &&
           tldRev.all Char.isAlpha && decide (2 ≤ tldRev.length)
       | _ => false)
  | _ => false

/-- InvoiceDataValidator._validate_phone. -/
def validatePhone (phone : String) : Option String :=
  let kept := phone.toList.filter (fun c => c.isDigit || c = '+')
  let cleaned :=
    match kept with
    | '+' :: r => '+' :: r.filter Char.isDigit
    | r => r.filter Char.isDigit
  let digitCount := (cleaned.filter Char.isDigit).length
  if 7 ≤ digitCount && digitCount ≤ 15 then some (String.mk cleaned)
  else Option.none

/-- Uppercase ASCII letter test, the [A-Z] class. -/
def isUpperAZ (c : Char) : Bool := 'A' ≤ c && c ≤ 'Z'

/-- InvoiceDataValidator._validate_vat_number.  Note: this helper is defined
in data_validator.py but never called by the live validation path. -/
def validateVatNumber (vat : String) : Option String :=
  let cleaned := String.mk ((pyUpper vat).toList.filter (fun c => !c.isWhitespace))
  let cs := cleaned.toList
  let euFormat :=
    match cs with
    | a :: b :: rest =>
        isUpperAZ a && isUpperAZ b &&
        rest.all (fun c => c.isDigit || isUpperAZ c) &&
        decide (8 ≤ rest.length) && decide (rest.length ≤ 12)
    | _ => false
  let digitFormat :=
    cs.all Char.isDigit && decide (8 ≤ cs.length) && decide (cs.length ≤ 12)
  if euFormat then some cleaned
  else if digitFormat then some cleaned
  else Option.none

/-- The scheme auto-prefixing applied to supplier websites. -/
def addScheme (w : String) : String :=
  if strPrefix "http://" w || strPrefix "https://" w then w
  else "https://" ++ w

/-- Full match against the URL pattern of _validate_website: a scheme, a
nonempty host run, a dot followed by at least two letters, then anything. -/
def matchesUrl (w : String) : Bool :=
  let afterScheme : Option (List Char) :=
    if strPrefix "http://" w then some (w.toList.drop 7)
    else if strPrefix "https://" w then some (w.toList.drop 8)
    else Option.none
  match afterScheme with
  | Option.none => false
  | some cs =>
      (List.range cs.length).any fun j =>
        cs.getD j ' ' = '.' && decide (1 ≤ j) && (cs.take j).all hostChar &&
        (match cs.drop (j + 1) with
         | a :: b :: _ => a.isAlpha && b.isAlpha
         | _ => false)

/-- InvoiceDataValidator._validate_website.  Also never called by the live
validation path. -/
def validateWebsite (website : String) : Option String :=
  let w := addScheme website
  if matchesUrl w then some w else Option.none

/-- InvoiceDataValidator._parse_date: falsy input parses to None, otherwise
str(value).strip() is handed to strptime over the fixed format list,
which the oracle supplies. -/
def parseDateE (o : PyOracles) (v : PyVal) : Option PyDate :=
  if !v.truthy then Option.none
  else o.parse_date (pyStrip (fstr o v))

/-- The cleaned invoice record assembled by validate_invoice; a field is
none exactly when the corresponding key is absent from the cleaned dict. -/
structure Cleaned where
  supplier_name : Option String
  supplier_vat_number : Option String
  supplier_address : Option String
  supplier_website : Option String
  currency : Option String
  total_net : Option Rat
  total_tax : Option Rat
  total_amount : Option Rat
  expense_date : Option PyDate
  supplier_email : Option String
  supplier_phone_number : Option String
  invoice_number : Option String

/-- The supplier-name branch of _validate_supplier_info: field value and
warnings, in emission order. -/
def supplierNameStep (name : Option String) : Option String × List String :=
  match name with
  | some s =>
      if decide (255 < pyLen s) then
        (some (pyTake s 255), ["Supplier name truncated to 255 characters"])
      else (some s, [])
  | Option.none => (Option.none, ["Supplier name is missing or empty"])

/-- InvoiceDataValidator._validate_supplier_info.  The guards
`if x and x.strip()` coincide with _clean_string returning a value, and the
VAT number is stored as-is without calling _validate_vat_number; the website
is scheme-prefixed and stored without calling _validate_website. -/
def validateSupplierInfo (o : PyOracles) (d : Normalized) :
    (Option String × Option String × Option String × Option String) × List String :=
  let nameStep := supplierNameStep (cleanString o d.supplier_name)
  ((nameStep.1,
    cleanString o d.supplier_vat_number,
    cleanString o d.supplier_address,
    (cleanString o d.supplier_website).map addScheme),
   nameStep.2)

/-- The currency branch of _validate_financial_data. -/
def currencyStep (currency : Option String) : Option String × List String :=
  match currency with
  | some c0 =>
      let c := pyUpper c0
      if decide (10 < pyLen c) then (some (pyTake c 10), ["Currency code truncated"])
      else (some c, [])
  | Option.none => (Option.none, [])

/-- One amount field of _validate_financial_data: parsed value and warning. -/
def amountStep (o : PyOracles) (fieldName : String) (v : PyVal) :
    Option Rat × List String :=
  match validateAmount v with
  | some a => (some a, [])
  | Option.none =>
      if v.truthy then (Option.none, ["Invalid " ++ fieldName ++ ": " ++ fstr o v])
      else (Option.none, [])

/-- InvoiceDataValidator._validate_financial_data. -/
def validateFinancialData (o : PyOracles) (d : Normalized) :
    (Option String × Option Rat × Option Rat × Option Rat) × List String :=
  let cur := currencyStep (cleanString o d.currency)
  let net := amountStep o "total_net" d.total_net
  let tax := amountStep o "total_tax" d.total_tax
  let tot := amountStep o "total_amount" d.total_amount
  ((cur.1, net.1, tax.1, tot.1), cur.2 ++ net.2 ++ tax.2 ++ tot.2)

/-- InvoiceDataValidator._validate_dates: years_diff uses true division by
365.25 of the day difference, with abs applied afterwards. -/
def validateDates (o : PyOracles) (d : Normalized) : Option PyDate × List String :=
  let v := d.expense_date
  if !v.truthy then (Option.none, [])
  else
    match parseDateE o v with
    | some pd =>
        if |((o.now_days - pd.days : Int) : Rat) / 365.25| > 10 then
          (some pd, ["Expense date seems unusual: " ++ pd.dateRepr])
        else (some pd, [])
    | Option.none => (Option.none, ["Invalid expense date format: " ++ fstr o v])

/-- The email branch of _validate_contact_info. -/
def emailStep (email : Option String) : Option String × List String :=
  match email with
  | some e =>
      if matchesEmail e then (some (pyLower e), [])
      else (Option.none, ["Invalid email format: " ++ e])
  | Option.none => (Option.none, [])

/-- The phone branch of _validate_contact_info. -/
def phoneStep (phone : Option String) : Option String × List String :=
  match phone with
  | some p =>
      match validatePhone p with
      | some cp => (some cp, [])
      | Option.none => (Option.none, ["Invalid phone format: " ++ p])
  | Option.none => (Option.none, [])

/-- The invoice-number branch of _validate_contact_info. -/
def invoiceNumberStep (inv : Option String) : Option String × List String :=
  match inv with
  | some i =>
      if decide (100 < pyLen i) then (some (pyTake i 100), ["Invoice number truncated"])
      else (some i, [])
  | Option.none => (Option.none, [])

/-- InvoiceDataValidator._validate_contact_info. -/
def validateContactInfo (o : PyOracles) (d : Normalized) :
    (Option String × Option String × Option String) × List String :=
  let em := emailStep (cleanString o d.supplier_email)
  let ph := phoneStep (cleanString o d.supplier_phone_number)
  let inv := invoiceNumberStep (cleanString o d.invoice_number)
  ((em.1, ph.1, inv.1), em.2 ++ ph.2 ++ inv.2)

/-- One negative-amount check of _cross_validate_amounts. -/
def negativeStep (o : PyOracles) (fieldName : String) (a : Option Rat) : List String :=
  match a with
  | some x =>
      if x < 0 then ["Negative amount detected in " ++ fieldName ++ ": " ++ o.show_float x]
      else []
  | Option.none => []

/-- InvoiceDataValidator._cross_validate_amounts: the arithmetic comparison
is idealised over exact rationals (the source compares Python floats). -/
def crossValidateAmounts (o : PyOracles) (c : Cleaned) : List String :=
  let mismatch :=
    match c.total_net, c.total_tax, c.total_amount with
    | some net, some tax, some tot =>
        let calcTotal := net + tax
        let diff := |calcTotal - tot|
        if diff > 0.02 then
          ["Amount calculation mismatch: " ++ o.show_float net ++ " + " ++
           o.show_float tax ++ " = " ++ o.show_float calcTotal ++
           ", but total_amount is " ++ o.show_float tot ++
           " (difference: " ++ o.show_float diff ++ ")"]
        else []
    | _, _, _ => []
  mismatch ++ negativeStep o "total_net" c.total_net ++
    negativeStep o "total_tax" c.total_tax ++
    negativeStep o "total_amount" c.total_amount

/-- InvoiceDataValidator.validate_invoice: returns
(cleaned_data, errors, warnings).  The error list is reset to [] on entry and
no statement of the class appends to it; every anomaly goes to warnings, in
the source's emission order (supplier, financial, dates, contact, cross). -/
def validateInvoice (o : PyOracles) (invoice_data : List (String × PyVal)) :
    Cleaned × List String × List String :=
  let n := normalizeLLM invoice_data
  let sup := validateSupplierInfo o n
  let fin := validateFinancialData o n
  let dat := validateDates o n
  let con := validateContactInfo o n
  let cleaned : Cleaned :=
    { supplier_name := sup.1.1
      supplier_vat_number := sup.1.2.1
      supplier_address := sup.1.2.2.1
      supplier_website := sup.1.2.2.2
      currency := fin.1.1
      total_net := fin.1.2.1
      total_tax := fin.1.2.2.1
      total_amount := fin.1.2.2.2
      expense_date := dat.1
      supplier_email := con.1.1
      supplier_phone_number := con.1.2.1
      invoice_number := con.1.2.2 }
  (cleaned, [],
   sup.2 ++ fin.2 ++ dat.2 ++ con.2 ++ crossValidateAmounts o cleaned)

/-- Truthiness of an upload return value (an object name or None). -/
def objTruthy : Option String → Bool
  | Option.none => false
  | some s => s != ""

/-- One entry of the per-stage status map of a PipelineRun. -/
inductive StageEntry where
  | upload (status : String) (object_name : Option String)
  | ocr (status : String) (object_name : Option String) (text_length : Nat)
  | validation (status : String) (errors_count warnings_count : Nat)
  | db (status : String) (database_id : Int)

/-- The pipeline_result mapping built by process_invoice_pipeline.
final_status is none while the key is not yet set. -/
structure PipelineResult where
  invoice_id : Int
  stages : List (String × StageEntry)
  errors : List String
  warnings : List String
  final_status : Option String
  cleaned_data : Option Cleaned

/-- The except-branch of process_invoice_pipeline: set final_status to
"failed" and append str(e) to the error list. -/
def failBranch (r : PipelineResult) (e : String) : PipelineResult :=
  { r with final_status := some "failed", errors := r.errors ++ [e] }

/-- One run's behaviour of the pipeline collaborators: each call either
returns a value (.ok) or raises with message str(e) (.error).  The LLM stage
returns either raw text (to be json-decoded) or an already structured
payload; json.loads is the decode oracle (none = JSONDecodeError).  Payloads
are modelled as JSON objects; a JSON body of another shape surfaces as a
stage exception and is covered by the .error cases. -/
structure PipelineEnv where
  upload_raw_invoice : Except String (Option String)
  extract_text_from_image : Except String String
  upload_ocr_output : Except String (Option String)
  extract_invoice_data : Except String (Sum String (List (String × PyVal)))
  json_loads : String → Option (List (String × PyVal))
  upload_llm_output : Except String (Option String)
  upload_cleaned_invoice : Except String (Option String)
  create_invoice : Except String Int

/-- The outcome of stage 3: the LLM call itself may raise; a string result
is json-decoded, and a decode failure raises "Invalid JSON from LLM"; a
non-string result is used as-is. -/
def llmDecode (env : PipelineEnv) : Except String (List (String × PyVal)) :=
  match env.extract_invoice_data with
  | .error e => .error e
  | .ok (.inl s) =>
      match env.json_loads s with
      | some d => .ok d
      | Option.none => .error "Invalid JSON from LLM"
  | .ok (.inr d) => .ok d

/-- PipelineService.process_invoice_pipeline.  The temp-file write and
unlink have no observable effect here; prints are dropped.  Every raise
inside the try block lands in the single except handler (failBranch). -/
def processInvoicePipeline (env : PipelineEnv) (o : PyOracles)
    (invoice_id : Int) (_file_content : List Nat) (_filename : String) :
    PipelineResult :=
  let r0 : PipelineResult :=
    { invoice_id := invoice_id, stages := [], errors := [], warnings := [],
      final_status := Option.none, cleaned_data := Option.none }
  match env.upload_raw_invoice with
  | .error e => failBranch r0 e
  | .ok rawName =>
    let r1 := { r0 with stages := r0.stages ++
      [("raw_upload", StageEntry.upload (if objTruthy rawName then "success" else "failed") rawName)] }
    match env.extract_text_from_image with
    | .error e => failBranch r1 e
    | .ok ocrText =>
      match env.upload_ocr_output with
      | .error e => failBranch r1 e
      | .ok ocrName =>
        let r2 := { r1 with stages := r1.stages ++
          [("ocr_extraction", StageEntry.ocr (if objTruthy ocrName then "success" else "failed")
             ocrName (if ocrText != "" then pyLen ocrText else 0))] }
        if ocrText = "" then failBranch r2 "OCR extraction failed"
        else
          match llmDecode env with
          | .error e => failBranch r2 e
          | .ok llmData =>
              match env.upload_llm_output with
              | .error e => failBranch r2 e
              | .ok llmName =>
                let r3 := { r2 with stages := r2.stages ++
                  [("llm_extraction", StageEntry.upload
                     (if objTruthy llmName then "success" else "failed") llmName)] }
                let vres := validateInvoice o llmData
                let cleaned := vres.1
                let errors := vres.2.1
                let warnings := vres.2.2
                let r4 := { r3 with
                  errors := r3.errors ++ errors,
                  warnings := r3.warnings ++ warnings,
                  stages := r3.stages ++
                    [("data_validation", StageEntry.validation
                       (if errors.isEmpty then "success" else "failed")
                       errors.length warnings.length)] }
                match env.upload_cleaned_invoice with
                | .error e => failBranch r4 e
                | .ok cleanedName =>
                  let r5 := { r4 with stages := r4.stages ++
                    [("cleaned_upload", StageEntry.upload
                       (if objTruthy cleanedName then "success" else "failed") cleanedName)] }
                  match env.create_invoice with
                  | .error e => failBranch r5 e
                  | .ok dbId =>
                    let r6 := { r5 with stages := r5.stages ++
                      [("database_save", StageEntry.db "success" dbId)] }
                    { r6 with
                      final_status := some
                        (if errors.length = 0 then "success" else "success_with_warnings"),
                      cleaned_data := some cleaned }

/-- A collaborator invocation observable during reprocess_invoice. -/
inductive PAction where
  | getLlmObject
  | ocrCall
  | llmCall
  | uploadCleaned
  deriving DecidableEq

/-- Collaborator behaviour for reprocess_invoice: the stored LLM artifact
for the invoice, already json-decoded (none covers both an absent object
and empty bytes, which the `if not llm_data_bytes` guard treats alike). -/
structure ReprocessEnv where
  llmArtifact : Option (List (String × PyVal))

/-- The return value of reprocess_invoice when it returns. -/
inductive RpResult where
  | notFound (error : String)
  | success (errors warnings : List String) (cleaned_object_name : Option String)

/-- PipelineService.reprocess_invoice, paired with the trace of collaborator
invocations it performs.  On the found path, after re-validation the
construction of cleaned_data_with_validation evaluates
datetime.utcnow().isoformat(); pipeline_service.py contains no import of
datetime (its imports are os, json, asyncio, Path, typing, Session and the
project modules), so that expression raises NameError before
upload_cleaned_invoice can be called, and the method has no handler. -/
def reprocessInvoice (env : ReprocessEnv) (o : PyOracles) :
    Except String RpResult × List PAction :=
  match env.llmArtifact with
  | Option.none => (.ok (.notFound "No LLM output found for this invoice"), [.getLlmObject])
  | some llmData =>
      let _vres := validateInvoice o llmData
      (.error "name 'datetime' is not defined", [.getLlmObject])

/-- The object names currently stored in each of the four fixed buckets.
Modelled from the spec: services/minio_service.py (MinIOService) is not
under src/; section 4.5 fixes the bucket set raw_invoices, ocr_output,
llm_output, cleaned_invoices. -/
structure ObjectStore where
  raw_invoices : List String
  ocr_output : List String
  llm_output : List String
  cleaned_invoices : List String

/-- Modelled from the spec: MinIOService.list_objects is not under src/;
section 4.5 specifies list(bucket, prefix) as the sequence of object names
in the bucket that begin with the given prefix. -/
def listObjects (bucket : List String) (p : String) : List String :=
  bucket.filter (fun n => strPrefix p n)

/-- Modelled from the spec: the object naming convention of section 6 is
invoice_(id)_(stage).(ext), so an artifact belongs to an invoice id exactly
when its name starts with "invoice_", the decimal id and an underscore. -/
def artifactBelongsTo (name : String) (invoice_id : Int) : Bool :=
  strPrefix ("invoice_" ++ toString invoice_id ++ "_") name

/-- The per-stage booleans returned by get_pipeline_status. -/
structure PipelineStatus where
  raw_upload : Bool
  ocr_extraction : Bool
  llm_extraction : Bool
  cleaned_data : Bool

/-- PipelineService.get_pipeline_status. -/
def getPipelineStatus (store : ObjectStore) (invoice_id : Int) : PipelineStatus :=
  let p := "invoice_" ++ toString invoice_id
  { raw_upload := decide (0 < (listObjects store.raw_invoices p).length)
    ocr_extraction := decide (0 < (listObjects store.ocr_output p).length)
    llm_extraction := decide (0 < (listObjects store.llm_output p).length)
    cleaned_data := decide (0 < (listObjects store.cleaned_invoices p).length) }

/-- A concrete instantiation of the standard-library oracles, used for the
concrete evaluations below: no date string parses, floats render as "?". -/
def oEx : PyOracles :=
  { show_float := fun _ => "?"
    show_other := fun _ => "?"
    parse_date := fun _ => Option.none
    now_days := 0 }

/-- The LLM payload of the end-to-end scenario of the spec (section 8),
with the consistent total 120. -/
def scenarioOkData : List (String × PyVal) :=
  [("supplier", PyVal.dict
      [("name", PyVal.str "Acme Ltd"), ("vat_number", PyVal.str "gb123456789")]),
   ("total_net", PyVal.float 100), ("total_tax", PyVal.float 20),
   ("total_amount", PyVal.float 120)]

/-- The same scenario with total_amount 150, which makes cross-validation
emit the mismatch warning. -/
def scenarioWarnData : List (String × PyVal) :=
  [("supplier", PyVal.dict
      [("name", PyVal.str "Acme Ltd"), ("vat_number", PyVal.str "gb123456789")]),
   ("total_net", PyVal.float 100), ("total_tax", PyVal.float 20),
   ("total_amount", PyVal.float 150)]

/-- C10: on every input mapping and for every standard-library behaviour,
validate_invoice returns an empty error list: the validator and
cross-validator append every detected anomaly to the warning list only, so
the data-validation stage can never cause a failed status. -/
theorem c10_validator_never_errors (o : PyOracles) (d : List (String × PyVal)) :
    (validateInvoice o d).2.1 = [] := rfl

/-- The selector the claim describes, following the spec words: the first
non-empty value along the alias chain, where a missing key (None) and the
empty string are the empty values. -/
def firstNonEmptyValue (data : List (String × PyVal)) : List String → Option PyVal
  | [] => Option.none
  | k :: ks =>
      match dget data k with
      | .none => firstNonEmptyValue data ks
      | .str "" => firstNonEmptyValue data ks
      | v => some v

/-- The selector the code implements: Python `or` keeps the first truthy
value along the chain, with the given default when every candidate is
falsy (so 0, 0.0, False and empty containers are skipped as well). -/
def firstTruthyValue (data : List (String × PyVal)) (dflt : PyVal) :
    List String → PyVal
  | [] => dflt
  | k :: ks => pyOr (dget data k) (firstTruthyValue data dflt ks)

/-- C5 counterexample: on the input with total_net = 0 and subtotal = 50,
the first non-empty value of the total_net alias chain is 0, but
normalization returns 50: the `or` chain skips the falsy 0, so resolution
is not "first non-empty". -/
theorem c5_zero_skipped_counterexample :
    firstNonEmptyValue [("total_net", PyVal.int 0), ("subtotal", PyVal.int 50)]
        ["total_net", "subtotal", "net_amount"] = some (PyVal.int 0) ∧
    (normalizeLLM [("total_net", PyVal.int 0), ("subtotal", PyVal.int 50)]).total_net
        = PyVal.int 50 ∧
    PyVal.int 50 ≠ PyVal.int 0 := by
  refine ⟨rfl, rfl, fun h => ?_⟩
  simp at h

/-- C5 amended: field normalization resolves each canonical financial and
date field to the first truthy value of its fixed alias chain (null, empty
strings, zeros, False and empty containers are skipped), with default null
for the amount fields and the empty string for the date; in particular the
input with subtotal 100 and grand_total 120 yields total_net 100 and
total_amount 120. -/
theorem c5_alias_resolution (data : List (String × PyVal)) :
    (normalizeLLM data).total_net
        = firstTruthyValue data .none ["total_net", "subtotal", "net_amount"] ∧
    (normalizeLLM data).total_tax
        = firstTruthyValue data .none ["total_tax", "tax_amount", "vat_amount"] ∧
    (normalizeLLM data).total_amount
        = firstTruthyValue data .none
            ["total_amount", "total_amount_incl_tax", "grand_total", "amount_due"] ∧
    (normalizeLLM data).expense_date
        = firstTruthyValue data (.str "") ["expense_date", "invoice_date", "date"] ∧
    (normalizeLLM [("subtotal", PyVal.int 100), ("grand_total", PyVal.int 120)]).total_net
        = PyVal.int 100 ∧
    (normalizeLLM [("subtotal", PyVal.int 100), ("grand_total", PyVal.int 120)]).total_amount
        = PyVal.int 120 := by
  refine ⟨?_, ?_, ?_, ?_, rfl, rfl⟩ <;> rfl

/-- C7 counterexample: on the scenario input the cleaned
supplier_vat_number is the whitespace-normalized input with its case
preserved, not the upper-case canonical form the claim states. -/
theorem c7_vat_case_counterexample :
    (validateInvoice oEx scenarioOkData).1.supplier_vat_number = some "gb123456789" ∧
    (some "gb123456789" : Option String) ≠ some "GB123456789" := by
  exact ⟨rfl, by decide⟩

/-- C7 amended: the live validation path stores the VAT number exactly as
_clean_string returns it (whitespace-normalized, case preserved) and never
invokes the canonicalizer _validate_vat_number, which would have produced
the upper-case form; the scenario input yields "gb123456789". -/
theorem c7_vat_passthrough :
    (∀ (o : PyOracles) (data : List (String × PyVal)),
        (validateInvoice o data).1.supplier_vat_number
          = cleanString o (normalizeLLM data).supplier_vat_number) ∧
    validateVatNumber "gb123456789" = some "GB123456789" ∧
    (validateInvoice oEx scenarioOkData).1.supplier_vat_number = some "gb123456789" := by
  exact ⟨fun o data => rfl, rfl, rfl⟩

/-- C8 counterexample: the input website "localhost" fails the URL pattern
(no dot-tld), yet the cleaned output stores "https://localhost": the value
is stored unconditionally after scheme prefixing. -/
theorem c8_website_stored_despite_pattern_failure :
    (validateInvoice oEx [("supplier_website", PyVal.str "localhost")]).1.supplier_website
        = some "https://localhost" ∧
    matchesUrl "https://localhost" = false ∧
    validateWebsite "localhost" = Option.none := by
  exact ⟨rfl, rfl, rfl⟩

/-- C8 amended: a non-empty supplier website is auto-prefixed with https
when it carries no http or https scheme and is then always included in the
cleaned output; no URL-pattern filtering is applied (the checker
_validate_website is never invoked). -/
theorem c8_website_prefix_always_stored :
    (∀ (o : PyOracles) (data : List (String × PyVal)),
        (validateInvoice o data).1.supplier_website
          = (cleanString o (normalizeLLM data).supplier_website).map addScheme) ∧
    (validateInvoice oEx [("supplier_website", PyVal.str "example.com")]).1.supplier_website
        = some "https://example.com" ∧
    (validateInvoice oEx [("supplier_website", PyVal.str "http://a.io")]).1.supplier_website
        = some "http://a.io" := by
  exact ⟨fun o data => rfl, rfl, rfl⟩

/-- C3: on any invoice whose LLM artifact is present, reprocess_invoice
re-validates and then raises NameError while stamping the reprocessing
timestamp, because pipeline_service.py has no datetime binding; it never
reaches the cleaned-artifact upload and never returns the success mapping
the claim describes. -/
theorem c3_reprocess_raises_namerror :
    reprocessInvoice { llmArtifact := some scenarioOkData } oEx
      = (.error "name \x27datetime\x27 is not defined", [PAction.getLlmObject]) := rfl

/-- C4: when the LLM artifact is absent, reprocess_invoice returns the
distinct not-found mapping without raising, and its collaborator trace
contains no OCR call, no LLM call and no cleaned-artifact upload. -/
theorem c4_reprocess_missing_artifact (env : ReprocessEnv) (o : PyOracles)
    (h : env.llmArtifact = Option.none) :
    (reprocessInvoice env o).1 = .ok (.notFound "No LLM output found for this invoice") ∧
    (reprocessInvoice env o).2 = [PAction.getLlmObject] ∧
    PAction.ocrCall ∉ (reprocessInvoice env o).2 ∧
    PAction.llmCall ∉ (reprocessInvoice env o).2 ∧
    PAction.uploadCleaned ∉ (reprocessInvoice env o).2 := by
  rcases env with ⟨art⟩
  cases h
  refine ⟨rfl, rfl, ?_, ?_, ?_⟩ <;> simp [reprocessInvoice]

/-- Witness for C4 at a concrete empty store. -/
theorem c4_reprocess_missing_artifact_witness :
    (reprocessInvoice { llmArtifact := Option.none } oEx).1
        = .ok (.notFound "No LLM output found for this invoice") ∧
    (reprocessInvoice { llmArtifact := Option.none } oEx).2 = [PAction.getLlmObject] ∧
    PAction.ocrCall ∉ (reprocessInvoice { llmArtifact := Option.none } oEx).2 ∧
    PAction.llmCall ∉ (reprocessInvoice { llmArtifact := Option.none } oEx).2 ∧
    PAction.uploadCleaned ∉ (reprocessInvoice { llmArtifact := Option.none } oEx).2 :=
  c4_reprocess_missing_artifact { llmArtifact := Option.none } oEx rfl

/-- A store holding a single artifact that, by the naming convention,
belongs to invoice 12. -/
def storeC9 : ObjectStore :=
  { raw_invoices := ["invoice_12_raw.png"], ocr_output := [], llm_output := [],
    cleaned_invoices := [] }

/-- C9 counterexample: with only the invoice-12 raw artifact stored, the
status query for invoice 1 reports raw_upload = true, because the listing
prefix "invoice_1" also matches names of invoice 12: an artifact of a
different invoice_id can make a stage read true. -/
theorem c9_prefix_collision_counterexample :
    (getPipelineStatus storeC9 1).raw_upload = true ∧
    artifactBelongsTo "invoice_12_raw.png" 12 = true ∧
    artifactBelongsTo "invoice_12_raw.png" 1 = false := by
  refine ⟨?_, ?_, ?_⟩ <;> decide

/-- Nonempty filtering yields an element satisfying the predicate. -/
theorem filter_length_pos_iff {α : Type} (p : α → Bool) (l : List α) :
    0 < (l.filter p).length ↔ ∃ a ∈ l, p a = true := by
  induction l with
  | nil => simp
  | cons x xs ih => by_cases hx : p x <;> simp [hx, ih]

/-- C9 amended: get_pipeline_status returns one boolean per stage, and each
boolean is true exactly when the corresponding bucket holds at least one
object whose name starts with "invoice_" followed by the decimal invoice
id; since that string is not followed by a terminating underscore,
artifacts of any invoice whose decimal id extends the queried one also
satisfy it. -/
theorem c9_status_is_prefix_existence (store : ObjectStore) (invoice_id : Int) :
    ((getPipelineStatus store invoice_id).raw_upload = true ↔
      ∃ n ∈ store.raw_invoices,
        strPrefix ("invoice_" ++ toString invoice_id) n = true) ∧
    ((getPipelineStatus store invoice_id).ocr_extraction = true ↔
      ∃ n ∈ store.ocr_output,
        strPrefix ("invoice_" ++ toString invoice_id) n = true) ∧
    ((getPipelineStatus store invoice_id).llm_extraction = true ↔
      ∃ n ∈ store.llm_output,
        strPrefix ("invoice_" ++ toString invoice_id) n = true) ∧
    ((getPipelineStatus store invoice_id).cleaned_data = true ↔
      ∃ n ∈ store.cleaned_invoices,
        strPrefix ("invoice_" ++ toString invoice_id) n = true) := by
  refine ⟨?_, ?_, ?_, ?_⟩ <;>
    simp [getPipelineStatus, listObjects, filter_length_pos_iff]

/-- A run of the pipeline in which every collaborator succeeds and the LLM
returns the warning scenario payload (total_amount 150). -/
def envHappy : PipelineEnv :=
  { upload_raw_invoice := .ok (some "invoice_1_raw.png")
    extract_text_from_image := .ok "ACME LTD INVOICE"
    upload_ocr_output := .ok (some "invoice_1_ocr.txt")
    extract_invoice_data := .ok (.inr scenarioWarnData)
    json_loads := fun _ => Option.none
    upload_llm_output := .ok (some "invoice_1_llm.json")
    upload_cleaned_invoice := .ok (some "invoice_1_cleaned.json")
    create_invoice := .ok 1 }

/-- C2: on the spec scenario with total_amount 150 every stage completes,
validation emits exactly one warning (the cross-validation mismatch) and no
error, yet final_status is "success", not "success_with_warnings": the
source keys the final status on the error count alone, while the spec
(section 8) expects warnings to yield success_with_warnings. -/
theorem c2_warnings_still_report_success :
    (processInvoicePipeline envHappy oEx 1 [] "invoice.png").final_status
        = some "success" ∧
    (processInvoicePipeline envHappy oEx 1 [] "invoice.png").warnings.length = 1 ∧
    (processInvoicePipeline envHappy oEx 1 [] "invoice.png").errors = [] := by
  refine ⟨rfl, ?_, rfl⟩
  have h1 : (processInvoicePipeline envHappy oEx 1 [] "invoice.png").warnings
      = crossValidateAmounts oEx
          { supplier_name := some "Acme Ltd"
            supplier_vat_number := some "gb123456789"
            supplier_address := Option.none
            supplier_website := Option.none
            currency := Option.none
            total_net := some 100
            total_tax := some 20
            total_amount := some 150
            expense_date := Option.none
            supplier_email := Option.none
            supplier_phone_number := Option.none
            invoice_number := Option.none } := rfl
  rw [h1]
  unfold crossValidateAmounts negativeStep
  norm_num

/-- The raw_upload entry process_invoice_pipeline records after stage 1. -/
def rawUploadEntry (nm : Option String) : String × StageEntry :=
  ("raw_upload", StageEntry.upload (if objTruthy nm then "success" else "failed") nm)

/-- The ocr_extraction entry recorded after the OCR upload returns. -/
def ocrEntryOf (onm : Option String) (t : String) : String × StageEntry :=
  ("ocr_extraction", StageEntry.ocr (if objTruthy onm then "success" else "failed")
    onm (if t != "" then pyLen t else 0))

/-- The llm_extraction entry recorded after the LLM upload returns. -/
def llmEntryOf (lnm : Option String) : String × StageEntry :=
  ("llm_extraction", StageEntry.upload (if objTruthy lnm then "success" else "failed") lnm)

/-- The data_validation entry recorded from a validation outcome. -/
def validationEntryOf (v : Cleaned × List String × List String) : String × StageEntry :=
  ("data_validation", StageEntry.validation
    (if v.2.1.isEmpty then "success" else "failed") v.2.1.length v.2.2.length)

/-- The cleaned_upload entry recorded after the cleaned upload returns. -/
def cleanedEntryOf (cnm : Option String) : String × StageEntry :=
  ("cleaned_upload", StageEntry.upload (if objTruthy cnm then "success" else "failed") cnm)

/-- The mapping returned when a stage raises e after the given stages were
built: the prior errors with str(e) appended, final_status failed, no
cleaned_data key. -/
def failedAt (invoice_id : Int) (built : List (String × StageEntry))
    (priorErrors priorWarnings : List String) (e : String) : PipelineResult :=
  { invoice_id := invoice_id, stages := built, errors := priorErrors ++ [e],
    warnings := priorWarnings, final_status := some "failed",
    cleaned_data := Option.none }

/-- Whatever the collaborators do, the pipeline returns with one of the
three terminal statuses set. -/
theorem pipelineTerminalStatus (env : PipelineEnv) (o : PyOracles)
    (invoice_id : Int) (b : List Nat) (f : String) :
    (processInvoicePipeline env o invoice_id b f).final_status = some "failed" ∨
    (processInvoicePipeline env o invoice_id b f).final_status = some "success" ∨
    (processInvoicePipeline env o invoice_id b f).final_status
        = some "success_with_warnings" := by
  rcases env with ⟨ur, ote, uo, le, jl, ul, uc, ci⟩
  rcases ur with e | nm
  · exact Or.inl rfl
  rcases ote with e | t
  · exact Or.inl rfl
  rcases uo with e | onm
  · exact Or.inl rfl
  by_cases ht : t = ""
  · subst ht; exact Or.inl rfl
  simp only [processInvoicePipeline, llmDecode, if_neg ht]
  rcases le with e | lr
  · exact Or.inl rfl
  rcases lr with sraw | llm
  · rcases hjl : jl sraw with _ | llm
    · simp only [hjl]
      exact Or.inl rfl
    · simp only [hjl]
      rcases ul with e | lnm
      · exact Or.inl rfl
      rcases uc with e | cnm
      · exact Or.inl rfl
      rcases ci with e | dbId
      · exact Or.inl rfl
      exact Or.inr (Or.inl rfl)
  · rcases ul with e | lnm
    · exact Or.inl rfl
    rcases uc with e | cnm
    · exact Or.inl rfl
    rcases ci with e | dbId
    · exact Or.inl rfl
    exact Or.inr (Or.inl rfl)

/-- C1: process_invoice_pipeline never raises to its caller: for every
behaviour of the OCR, LLM, artifact-store and database collaborators it
returns a pipeline mapping bearing a terminal final_status, and whichever
stage is the first to raise, the remaining stages are skipped, the message
of the exception is appended to the error list, final_status is set to
"failed" and the partial mapping built so far is returned. -/
theorem c1_exceptions_become_failed_runs (env : PipelineEnv) (o : PyOracles)
    (invoice_id : Int) (b : List Nat) (f : String) :
    ((processInvoicePipeline env o invoice_id b f).final_status = some "failed" ∨
     (processInvoicePipeline env o invoice_id b f).final_status = some "success" ∨
     (processInvoicePipeline env o invoice_id b f).final_status
        = some "success_with_warnings") ∧
    (∀ e, env.extract_invoice_data = .error e → llmDecode env = .error e) ∧
    (∀ s, env.extract_invoice_data = .ok (.inl s) → env.json_loads s = Option.none →
      llmDecode env = .error "Invalid JSON from LLM") ∧
    (∀ e, env.upload_raw_invoice = .error e →
      processInvoicePipeline env o invoice_id b f = failedAt invoice_id [] [] [] e) ∧
    (∀ nm e, env.upload_raw_invoice = .ok nm →
      env.extract_text_from_image = .error e →
      processInvoicePipeline env o invoice_id b f
        = failedAt invoice_id [rawUploadEntry nm] [] [] e) ∧
    (∀ nm t e, env.upload_raw_invoice = .ok nm →
      env.extract_text_from_image = .ok t →
      env.upload_ocr_output = .error e →
      processInvoicePipeline env o invoice_id b f
        = failedAt invoice_id [rawUploadEntry nm] [] [] e) ∧
    (∀ nm onm, env.upload_raw_invoice = .ok nm →
      env.extract_text_from_image = .ok "" →
      env.upload_ocr_output = .ok onm →
      processInvoicePipeline env o invoice_id b f
        = failedAt invoice_id [rawUploadEntry nm, ocrEntryOf onm ""] [] []
            "OCR extraction failed") ∧
    (∀ nm t onm e, env.upload_raw_invoice = .ok nm →
      env.extract_text_from_image = .ok t → t ≠ "" →
      env.upload_ocr_output = .ok onm →
      llmDecode env = .error e →
      processInvoicePipeline env o invoice_id b f
        = failedAt invoice_id [rawUploadEntry nm, ocrEntryOf onm t] [] [] e) ∧
    (∀ nm t onm llm e, env.upload_raw_invoice = .ok nm →
      env.extract_text_from_image = .ok t → t ≠ "" →
      env.upload_ocr_output = .ok onm →
      llmDecode env = .ok llm →
      env.upload_llm_output = .error e →
      processInvoicePipeline env o invoice_id b f
        = failedAt invoice_id [rawUploadEntry nm, ocrEntryOf onm t] [] [] e) ∧
    (∀ nm t onm llm lnm e, env.upload_raw_invoice = .ok nm →
      env.extract_text_from_image = .ok t → t ≠ "" →
      env.upload_ocr_output = .ok onm →
      llmDecode env = .ok llm →
      env.upload_llm_output = .ok lnm →
      env.upload_cleaned_invoice = .error e →
      processInvoicePipeline env o invoice_id b f
        = failedAt invoice_id
            [rawUploadEntry nm, ocrEntryOf onm t, llmEntryOf lnm,
             validationEntryOf (validateInvoice o llm)]
            (validateInvoice o llm).2.1 (validateInvoice o llm).2.2 e) ∧
    (∀ nm t onm llm lnm cnm e, env.upload_raw_invoice = .ok nm →
      env.extract_text_from_image = .ok t → t ≠ "" →
      env.upload_ocr_output = .ok onm →
      llmDecode env = .ok llm →
      env.upload_llm_output = .ok lnm →
      env.upload_cleaned_invoice = .ok cnm →
      env.create_invoice = .error e →
      processInvoicePipeline env o invoice_id b f
        = failedAt invoice_id
            [rawUploadEntry nm, ocrEntryOf onm t, llmEntryOf lnm,
             validationEntryOf (validateInvoice o llm), cleanedEntryOf cnm]
            (validateInvoice o llm).2.1 (validateInvoice o llm).2.2 e) := by
  refine ⟨pipelineTerminalStatus env o invoice_id b f, ?_, ?_, ?_, ?_, ?_, ?_, ?_, ?_, ?_, ?_⟩
  · intro e h
    simp only [llmDecode, h]
  · intro s h1 h2
    simp only [llmDecode, h1, h2]
  · intro e h
    simp only [processInvoicePipeline, h]
    rfl
  · intro nm e h1 h2
    simp only [processInvoicePipeline, h1, h2]
    rfl
  · intro nm t e h1 h2 h3
    simp only [processInvoicePipeline, h1, h2, h3]
    rfl
  · intro nm onm h1 h2 h3
    simp only [processInvoicePipeline, h1, h2, h3]
    rfl
  · intro nm t onm e h1 h2 ht h3 h4
    simp only [processInvoicePipeline, h1, h2, h3, h4, if_neg ht]
    rfl
  · intro nm t onm llm e h1 h2 ht h3 h4 h5
    simp only [processInvoicePipeline, h1, h2, h3, h4, h5, if_neg ht]
    rfl
  · intro nm t onm llm lnm e h1 h2 ht h3 h4 h5 h6
    simp only [processInvoicePipeline, h1, h2, h3, h4, h5, h6, if_neg ht]
    rfl
  · intro nm t onm llm lnm cnm e h1 h2 ht h3 h4 h5 h6 h7
    simp only [processInvoicePipeline, h1, h2, h3, h4, h5, h6, h7, if_neg ht]
    rfl

/-- A run in which the very first collaborator call raises. -/
def envRawFail : PipelineEnv :=
  { upload_raw_invoice := .error "connection refused"
    extract_text_from_image := .ok ""
    upload_ocr_output := .ok Option.none
    extract_invoice_data := .ok (.inr [])
    json_loads := fun _ => Option.none
    upload_llm_output := .ok Option.none
    upload_cleaned_invoice := .ok Option.none
    create_invoice := .ok 0 }

/-- Witness for C1: a concrete run whose raw upload raises returns the
failed mapping with no stages and the message as its only error. -/
theorem c1_exceptions_become_failed_runs_witness :
    processInvoicePipeline envRawFail oEx 7 [] "inv.png"
      = failedAt 7 [] [] [] "connection refused" :=
  (c1_exceptions_become_failed_runs envRawFail oEx 7 [] "inv.png").2.2.2.1
    "connection refused" rfl
